import Mathlib

/-!
Verification of the devlogs-feed gamedev feed generator.

Each Rust source function named in a claim is shallowly embedded below:
`f32` arithmetic is modelled over `ℚ` (every concrete evaluation in this
file stays at points where the float computation is exact), `i64`/`usize`
over `ℤ`/`ℕ`, SQL tables over Lean lists, and the handful of external
effects (database reads, the RNG stream, the transcendental `powf`/`ln_1p`
primitives) over explicit function parameters documented at each site.
-/

namespace DevlogsFeed

/-- ASCII lower-casing of one character, as Rust `to_lowercase` /
`eq_ignore_ascii_case` behave on ASCII input (all configured vocabulary is
ASCII). -/
def lowerChar (c : Char) : Char :=
  if 65 ≤ c.toNat ∧ c.toNat ≤ 90 then Char.ofNat (c.toNat + 32) else c

/-- Rust `str::to_lowercase`, restricted to ASCII case mapping. -/
def toLowerStr (s : String) : String :=
  String.mk (s.data.map lowerChar)

/-- Check whether `needle` is a prefix of `hay` (character lists). -/
def listIsPrefix : List Char → List Char → Bool
  | [], _ => true
  | _ :: _, [] => false
  | n :: ns, h :: hs => n == h && listIsPrefix ns hs

/-- Rust `str::contains(substring)`: `needle` occurs contiguously in `hay`. -/
def listContainsSub : List Char → List Char → Bool
  | [], needle => needle.isEmpty
  | h :: t, needle => listIsPrefix needle (h :: t) || listContainsSub t needle

/-- Rust `str::contains` on strings. -/
def strContains (hay needle : String) : Bool :=
  listContainsSub hay.data needle.data

/-- A character matched by the source regex class `[a-zA-Z0-9]`
(`WORD_SPLIT` in `scoring/relevance.rs` splits on its complement). -/
def isWordChar (c : Char) : Bool :=
  c.isAlphanum

/-- Accumulator pass for `splitWords`: splits on maximal runs of
non-`[a-zA-Z0-9]` characters and keeps the nonempty fragments, as
`WORD_SPLIT.split(text).filter(|s| !s.is_empty())` does. -/
def splitWordsAux : List Char → List Char → List String
  | [], acc => if acc.isEmpty then [] else [String.mk acc.reverse]
  | c :: rest, acc =>
    if isWordChar c then splitWordsAux rest (c :: acc)
    else if acc.isEmpty then splitWordsAux rest []
    else String.mk acc.reverse :: splitWordsAux rest []

/-- Word splitting used by `contains_keyword` in `scoring/relevance.rs`. -/
def splitWords (s : String) : List String :=
  splitWordsAux s.data []

/-- Rust `str::eq_ignore_ascii_case`. -/
def eqIgnoreAsciiCase (a b : String) : Bool :=
  toLowerStr a == toLowerStr b

/-- Check whether `keyword_parts` matches the words at the head of `ws` position by
position (one step of the `windows(..)` scan in `contains_keyword`). -/
def windowMatches : List String → List String → Bool
  | _, [] => true
  | [], _ :: _ => false
  | w :: ws, k :: ks => eqIgnoreAsciiCase w k && windowMatches ws ks

/-- Some contiguous window of `words` equals `kps` under ASCII-case-blind
comparison: the `words.windows(n).any(..)` scan of `contains_keyword`.
(For the configured vocabulary `kps` is never empty, matching the source,
where `windows(0)` is unreachable.) -/
def anyWindow : List String → List String → Bool
  | [], kps => windowMatches [] kps
  | w :: ws, kps => windowMatches (w :: ws) kps || anyWindow ws kps

/-- Function `contains_keyword` from `src/src/scoring/relevance.rs`: single-word
entries must equal a whole word, multi-word entries must match a contiguous
token window. -/
def contains_keyword (text keyword : String) : Bool :=
  let keyword_parts := splitWords keyword
  let words := splitWords text
  if keyword_parts.length == 1 then
    words.any fun w => eqIgnoreAsciiCase w keyword
  else
    anyWindow words keyword_parts

/-- Constant `GAMEDEV_KEYWORDS` from `src/src/scoring/relevance.rs`. -/
def GAMEDEV_KEYWORDS : List String :=
  ["gamedev", "game dev", "game development", "game animation", "game art",
   "game audio", "game design", "indiedev", "indie dev", "devlog",
   "game jam", "gamejam", "ue5", "ue4", "godot", "gamemaker", "game maker",
   "rpg maker", "construct", "defold", "monogame", "libgdx", "phaser",
   "pygame", "love2d", "bevy", "macroquad", "raylib", "sdl", "sfml",
   "aseprite", "fmod", "wwise", "game engine", "environment design",
   "level design", "level editor", "glsl", "wgsl"]

/-- Constant `GAMEDEV_HASHTAGS` from `src/src/scoring/relevance.rs`. -/
def GAMEDEV_HASHTAGS : List String :=
  ["#gamedev", "#indiedev", "#indiegame", "#indiegames",
   "#screenshotsaturday", "#madewithunity", "#madewithgodot",
   "#madewithunreal", "#godot", "#bevy", "#pixelart", "#devlog",
   "#gamedevelopment", "#rust", "#rustlang"]

/-- Function `has_keywords` from `src/src/scoring/relevance.rs`. -/
def has_keywords (text : String) : Bool × Nat :=
  let text_lower := toLowerStr text
  let count := (GAMEDEV_KEYWORDS.filter fun kw => contains_keyword text_lower kw).length
  (decide (count > 0), count)

/-- Function `has_hashtags` from `src/src/scoring/relevance.rs`: note the source
tests `text_lower.contains(tag)`, plain substring containment. -/
def has_hashtags (text : String) : Bool × Nat :=
  let text_lower := toLowerStr text
  let count := (GAMEDEV_HASHTAGS.filter fun tag => strContains text_lower tag).length
  (decide (count > 0), count)

/-! ### Configuration constants

`settings.rs` loads a `Settings` value once at startup; the values below are
the `Settings::default()` literals (the optional override files are absent
in the modelled deployment). `f32` literals are written as exact rationals.
-/

/-- Config value `settings().scoring.weights.topic` from `src/src/settings.rs`. -/
def SCORING_WEIGHT_TOPIC : ℚ := 4/5

/-- Config value `settings().scoring.weights.semantic` from `src/src/settings.rs`. -/
def SCORING_WEIGHT_SEMANTIC : ℚ := 1/5

/-- Config value `settings().scoring.thresholds.score` from `src/src/settings.rs`. -/
def SCORING_THRESHOLD_SCORE : ℚ := 1/2

/-- Config value `settings().scoring.thresholds.ml_rejection` from `src/src/settings.rs`. -/
def SCORING_THRESHOLD_ML_REJECTION : ℚ := 17/20

/-- Config value `settings().scoring.thresholds.min_text_length` from `src/src/settings.rs`. -/
def MIN_TEXT_LENGTH : Nat := 20

/-! ### `src/src/scoring/score.rs` -/

/-- Structure `ScoreBreakdown` from `src/src/scoring/score.rs`. -/
structure ScoreBreakdown where
  classification_score : ℚ
  semantic_score : ℚ
  final_score : ℚ
deriving DecidableEq, Repr

/-- Function `calculate_score` from `src/src/scoring/score.rs`. -/
def calculate_score (classification_score semantic_score : ℚ) : ScoreBreakdown :=
  let final_score := classification_score * SCORING_WEIGHT_TOPIC
    + semantic_score * SCORING_WEIGHT_SEMANTIC
  { classification_score, semantic_score, final_score }

/-- Method `ScoreBreakdown::passes_threshold` from `src/src/scoring/score.rs`. -/
def ScoreBreakdown.passes_threshold (s : ScoreBreakdown) : Bool :=
  SCORING_THRESHOLD_SCORE ≤ s.final_score

/-! ### `src/src/scoring/priority.rs` -/

def POOR_QUALITY_PENALTY_MIN : ℚ := 1/2
def GOOD_QUALITY_BOOST_MIN : ℚ := 1/10
def ENGAGEMENT_BOOST_MIN : ℚ := 1/20
def BONUS_FIRST_PERSON : ℚ := 2/5
def BONUS_VIDEO : ℚ := 1/5
def BONUS_IMAGE_WITH_ALT : ℚ := 1/5
def PENALTY_MANY_IMAGES : ℚ := 3/5
def PENALTY_LINK_EXPO : ℚ := 3
def PENALTY_PROMO_LINK : ℚ := 3/2
def MANY_IMAGES_THRESHOLD : Nat := 3
def REPLY_WEIGHT : ℚ := 3
def REPOST_WEIGHT : ℚ := 2
def LIKE_WEIGHT : ℚ := 1
def VELOCITY_SCALE : ℚ := 1/10
def MAX_ENGAGEMENT_BOOST : ℚ := 1/2

/-- Type `ConfidenceTier` from `src/src/scoring/priority.rs`. -/
inductive ConfidenceTier
  | strong
  | high
  | moderate
  | low
deriving DecidableEq, Repr

def STRONG_THRESHOLD : ℚ := 17/20
def HIGH_THRESHOLD : ℚ := 7/10
def MODERATE_THRESHOLD : ℚ := 1/2

/-- Function `ConfidenceTier::from_score` from `src/src/scoring/priority.rs`. -/
def ConfidenceTier.from_score (score : ℚ) : ConfidenceTier :=
  if STRONG_THRESHOLD ≤ score then .strong
  else if HIGH_THRESHOLD ≤ score then .high
  else if MODERATE_THRESHOLD ≤ score then .moderate
  else .low

/-- Structure `PrioritySignals` from `src/src/scoring/priority.rs`.  `u8` counts are
`Nat` (the `u8` range is never exceeded in the claims below), `i32` counts
are `ℤ`. -/
structure PrioritySignals where
  topic_label : String := ""
  label_boost : ℚ := 0
  engagement_bait_score : ℚ := 0
  synthetic_score : ℚ := 0
  authenticity_score : ℚ := 0
  is_first_person : Bool := false
  images : Nat := 0
  has_video : Bool := false
  has_alt_text : Bool := false
  link_count : Nat := 0
  promo_link_count : Nat := 0
  engagement_velocity : ℚ := 0
  reply_count : ℤ := 0
  repost_count : ℤ := 0
  like_count : ℤ := 0
deriving DecidableEq, Repr

/-- One entry of the human-readable boost/penalty trace.  The source pushes
a formatted `String` at each site; each constructor below stands for the
formatted line pushed at the corresponding line of
`calculate_priority` in `src/src/scoring/priority.rs` (the claims concern
only which entries appear, never the numeric rendering inside a line). -/
inductive Reason
  | engagementBait
  | synthetic
  | firstPerson
  | video
  | altText
  | manyImages
  | links
  | promoLinks
  | trending
  | authentic
  | topic
deriving DecidableEq, Repr

/-- Structure `PriorityBreakdown` from `src/src/scoring/priority.rs`. -/
structure PriorityBreakdown where
  quality_penalty : ℚ
  content_modifier : ℚ
  engagement_boost : ℚ
  authenticity_boost : ℚ
  label_boost : ℚ
  final_priority : ℚ
  confidence : ConfidenceTier
  topic_label : String
  boost_reasons : List Reason
  penalty_reasons : List Reason
deriving DecidableEq, Repr

/-- Function `calculate_engagement_boost` from `src/src/scoring/priority.rs`.
`ln1p` stands for `f32::ln_1p`, an irrational-valued primitive passed in
explicitly; every theorem below evaluates it only at `0`, where
`ln_1p(0) = 0` exactly. -/
def calculate_engagement_boost (ln1p : ℚ → ℚ) (signals : PrioritySignals) : ℚ :=
  if 0 < signals.engagement_velocity then
    min (ln1p signals.engagement_velocity * VELOCITY_SCALE) MAX_ENGAGEMENT_BOOST
  else
    let weighted := (signals.reply_count : ℚ) * REPLY_WEIGHT
      + (signals.repost_count : ℚ) * REPOST_WEIGHT
      + (signals.like_count : ℚ) * LIKE_WEIGHT
    min (ln1p weighted * VELOCITY_SCALE) MAX_ENGAGEMENT_BOOST

/-- Function `calculate_priority` from `src/src/scoring/priority.rs`, lines 107-234,
with the trace strings abstracted to `Reason` tags (in push order). -/
def calculate_priority (ln1p : ℚ → ℚ) (score : ScoreBreakdown)
    (signals : PrioritySignals) : PriorityBreakdown :=
  let quality_penalty : ℚ :=
    (if POOR_QUALITY_PENALTY_MIN ≤ signals.engagement_bait_score
      then signals.engagement_bait_score else 0)
    + (if POOR_QUALITY_PENALTY_MIN ≤ signals.synthetic_score
      then signals.synthetic_score else 0)
  let content_modifier : ℚ :=
    (if signals.is_first_person then BONUS_FIRST_PERSON else 0)
    + (if signals.has_video then BONUS_VIDEO else 0)
    + (if 0 < signals.images ∧ signals.has_alt_text then BONUS_IMAGE_WITH_ALT else 0)
    - (if MANY_IMAGES_THRESHOLD ≤ signals.images then PENALTY_MANY_IMAGES else 0)
    - (if 0 < signals.link_count then PENALTY_LINK_EXPO ^ signals.link_count else 0)
    - (if 0 < signals.promo_link_count
      then (signals.promo_link_count : ℚ) * PENALTY_PROMO_LINK else 0)
  let engagement_boost := calculate_engagement_boost ln1p signals
  let authenticity_boost := signals.authenticity_score
  let label_boost := signals.label_boost
  let penalties : List Reason :=
    (if POOR_QUALITY_PENALTY_MIN ≤ signals.engagement_bait_score
      then [.engagementBait] else [])
    ++ (if POOR_QUALITY_PENALTY_MIN ≤ signals.synthetic_score
      then [.synthetic] else [])
    ++ (if MANY_IMAGES_THRESHOLD ≤ signals.images then [.manyImages] else [])
    ++ (if 0 < signals.link_count then [.links] else [])
    ++ (if 0 < signals.promo_link_count then [.promoLinks] else [])
  let boosts : List Reason :=
    (if signals.is_first_person then [.firstPerson] else [])
    ++ (if signals.has_video then [.video] else [])
    ++ (if 0 < signals.images ∧ signals.has_alt_text then [.altText] else [])
    ++ (if ENGAGEMENT_BOOST_MIN ≤ engagement_boost then [.trending] else [])
    ++ (if GOOD_QUALITY_BOOST_MIN ≤ authenticity_boost then [.authentic] else [])
    ++ [.topic]
  let final_priority := score.final_score + content_modifier + engagement_boost
    + authenticity_boost + label_boost - quality_penalty
  { quality_penalty, content_modifier, engagement_boost, authenticity_boost,
    label_boost, final_priority,
    confidence := ConfidenceTier.from_score score.final_score,
    topic_label := signals.topic_label,
    boost_reasons := boosts, penalty_reasons := penalties }

/-! ### Storage model, `src/src/db.rs`

A SQL table is a list of rows in insertion order.  The `posts` columns not
read by any modelled operation (`text`, the score columns, the content
flags) are omitted from the row type; `uri` (the primary key), `timestamp`,
`priority` and `author_did` are the columns the embedded queries touch. -/

/-- Row of the `posts` table (key columns; see section comment). -/
structure DbPost where
  uri : String
  timestamp : ℤ
  priority : ℚ
  author_did : Option String := none
deriving DecidableEq, Repr

/-- Row of the `likes` table (primary key `(post_uri, like_uri)`). -/
structure LikeRow where
  post_uri : String
  like_uri : String
deriving DecidableEq, Repr

/-- The embedded SQL store: `posts` and `likes` tables. -/
structure DbState where
  posts : List DbPost
  likes : List LikeRow
deriving DecidableEq, Repr

/-- One row of an `INSERT OR IGNORE INTO posts` batch: the row is dropped
when its primary key `uri` is already present. -/
def insertOrIgnorePost (table : List DbPost) (p : DbPost) : List DbPost :=
  if table.any fun q => q.uri = p.uri then table else table ++ [p]

/-- Function `insert_posts` from `src/src/db.rs`: bulk
`INSERT OR IGNORE INTO posts`, rows processed in order. -/
def insert_posts (db : DbState) (new_posts : List DbPost) : DbState :=
  { db with posts := new_posts.foldl insertOrIgnorePost db.posts }

/-- One row of an `INSERT OR IGNORE INTO likes` batch: the row is dropped
when its primary key `(post_uri, like_uri)` is already present. -/
def insertOrIgnoreLike (table : List LikeRow) (l : LikeRow) : List LikeRow :=
  if table.any fun e => e.post_uri = l.post_uri ∧ e.like_uri = l.like_uri
  then table else table ++ [l]

/-- Function `insert_likes` from `src/src/db.rs`, lines 104-132: load the
uris of the referenced posts that exist, keep only likes whose `post_uri`
is among them, then bulk `INSERT OR IGNORE INTO likes`. -/
def insert_likes (db : DbState) (new_likes : List LikeRow) : DbState :=
  if new_likes.isEmpty then db
  else
    let post_uris := new_likes.map fun l => l.post_uri
    let existing_posts :=
      (db.posts.filter fun p => post_uris.contains p.uri).map fun p => p.uri
    let valid_likes := new_likes.filter fun l => existing_posts.contains l.post_uri
    if valid_likes.isEmpty then db
    else { db with likes := valid_likes.foldl insertOrIgnoreLike db.likes }

/-- Function `delete_post` from `src/src/db.rs`: delete the `posts` row
with the given uri. -/
def delete_post (db : DbState) (post_uri : String) : DbState :=
  { db with posts := db.posts.filter fun p => ¬ p.uri = post_uri }

/-- Function `delete_like` from `src/src/db.rs`: delete `likes` rows with
the given `like_uri`. -/
def delete_like (db : DbState) (like_uri_val : String) : DbState :=
  { db with likes := db.likes.filter fun l => ¬ l.like_uri = like_uri_val }

/-- Function `cleanup_old_posts` from `src/src/db.rs`, lines 177-202:
delete posts with `timestamp < cutoff`, then, if more than `max_posts`
remain, delete the `excess` oldest by ascending timestamp (a SQL
`ORDER BY timestamp ASC LIMIT excess`, modelled by a stable sort on the
table order). -/
def cleanup_old_posts (posts : List DbPost) (cutoff_timestamp max_posts : ℤ) :
    List DbPost :=
  let after_age := posts.filter fun p => ¬ p.timestamp < cutoff_timestamp
  let count : ℤ := after_age.length
  if max_posts < count then
    let excess := count - max_posts
    let uris_to_delete :=
      ((after_age.insertionSort fun a b => a.timestamp ≤ b.timestamp).take
        excess.toNat).map fun p => p.uri
    after_age.filter fun p => ¬ uris_to_delete.contains p.uri
  else after_age

/-! ### Pipeline buffering state, `src/src/handler.rs` -/

/-- The four pending queues of `GameDevFeedHandler` plus the store they are
flushed into.  A pending post is a `DbPost` row (the columns the flush
writes and later reads); a pending like is a `LikeRow`. -/
structure HandlerState where
  db : DbState
  pending_posts : List DbPost
  pending_likes : List LikeRow
  pending_deletes : List String
  pending_like_deletes : List String
deriving DecidableEq, Repr

/-- Function `flush_pending` from `src/src/handler.rs`, lines 106-147:
drain the queues, run post deletes then like deletes, drop pending likes
whose post is being deleted in this flush, then insert the remaining posts
and likes. -/
def flush_pending (st : HandlerState) : HandlerState :=
  if st.pending_posts.isEmpty ∧ st.pending_likes.isEmpty
    ∧ st.pending_deletes.isEmpty ∧ st.pending_like_deletes.isEmpty then st
  else
    let deletes := st.pending_deletes
    let like_deletes := st.pending_like_deletes
    let db1 := deletes.foldl delete_post st.db
    let db2 := like_deletes.foldl delete_like db1
    let posts_to_insert := st.pending_posts
    let likes_to_insert :=
      st.pending_likes.filter fun l => ¬ deletes.contains l.post_uri
    let db3 := insert_posts db2 posts_to_insert
    let db4 := insert_likes db3 likes_to_insert
    { db := db4, pending_posts := [], pending_likes := [],
      pending_deletes := [], pending_like_deletes := [] }

/-! ### Request ranker, `serve_feed` in `src/src/handler.rs`

External inputs of `serve_feed` become parameters: `now` (the wall clock),
`store` (the `posts` table), `seen` (the rows returned by
`get_user_seen_posts` for the viewer, possibly referencing posts no longer
in the window), `boosted`/`penalized` (the author sets derived from
`get_user_preferences` + `get_post_author`), `variance` (the RNG stream:
`variance i` is the i-th draw of
`rng.random_range(-SHUFFLE_VARIANCE..SHUFFLE_VARIANCE)`), and `decayPow`
(the float primitive `x ↦ 0.75f32.powf x`; irrational in general, so passed
as a function — concrete theorems instantiate it at exponents where the
float value is exact). -/

def FEED_CUTOFF_HOURS : ℤ := 24 * 7
def FEED_DEFAULT_LIMIT : Nat := 50
def FEED_MAX_LIMIT : Nat := 500
def SHUFFLE_VARIANCE : ℚ := 1/20
def PREFERENCE_BOOST : ℚ := 3/2
def PREFERENCE_PENALTY : ℚ := 3/10
def DECAY_EVERY_X_HOURS : ℚ := 24
def DECAY_FACTOR : ℚ := 3/4

/-- Function `apply_time_decay` from `src/src/scoring/mod.rs`, lines
321-325: `score * DECAY_FACTOR.powf(hours_old / DECAY_EVERY_X_HOURS)`.
`decayPow` stands for `x ↦ DECAY_FACTOR.powf x`; timestamps are plain
seconds (the source converts through `DateTime` values losslessly). -/
def apply_time_decay (decayPow : ℚ → ℚ) (score : ℚ) (post_time now : ℤ) : ℚ :=
  let hours_old : ℚ := ((now - post_time : ℤ) : ℚ) / 3600
  score * decayPow (hours_old / DECAY_EVERY_X_HOURS)

/-- Function `get_feed` from `src/src/db.rs`: posts with
`timestamp > cutoff`, ordered by `(timestamp DESC, priority DESC)`. -/
def get_feed (store : List DbPost) (cutoff_timestamp : ℤ) : List DbPost :=
  (store.filter fun p => cutoff_timestamp < p.timestamp).insertionSort fun a b =>
    b.timestamp < a.timestamp
      ∨ (a.timestamp = b.timestamp ∧ b.priority ≤ a.priority)

/-- Structure `FeedRequest` (the fields `serve_feed` reads; the viewer did
is resolved into the `seen`/`boosted`/`penalized` oracle inputs). -/
structure FeedRequestM where
  cursor : Option String := none
  limit : Option Nat := none
deriving DecidableEq, Repr

/-- Structure `FeedResult` from the serving interface. -/
structure FeedResultM where
  cursor : Option String
  feed : List String
deriving DecidableEq, Repr

/-- Collecting a list of rows into a `HashSet` (the `seen_posts` set in
`serve_feed`): first occurrence of each element is kept, so `contains` and
the element count (`len()`) of the hash set are those of this list. -/
def hashSetOfList (l : List String) : List String :=
  l.foldl (fun acc s => if acc.contains s then acc else acc ++ [s]) []

/-- Indexed map, `i` counting from the given start: models an
`iter().map(..)` whose closure additionally consumes the i-th draw of the
RNG stream. -/
def mapWithIndex (f : Nat → α → β) : Nat → List α → List β
  | _, [] => []
  | i, a :: l => f i a :: mapWithIndex f (i + 1) l

/-- The `preference_modifier` computed per post inside `serve_feed`. -/
def preference_modifier (boosted penalized : List String)
    (author_did : Option String) : ℚ :=
  match author_did with
  | some author =>
    if boosted.contains author then PREFERENCE_BOOST
    else if penalized.contains author then PREFERENCE_PENALTY
    else 1
  | none => 1

/-- The `scored_posts` list of `serve_feed` (`src/src/handler.rs`, lines
352-382) after its descending stable sort: unseen posts paired with
`decayed priority * preference modifier * (1 + variance)`.  The stable
`sort_by(|a, b| b.1.partial_cmp(&a.1))` sorts descending with
`r a b := b.score ≤ a.score`; a stable sort over a total preorder is
extensionally unique, so the structural `insertionSort` below computes the
same list as Rust's stable merge sort. -/
def serve_feed_scored (store : List DbPost) (now : ℤ) (seen : List String)
    (boosted penalized : List String) (variance : Nat → ℚ)
    (decayPow : ℚ → ℚ) : List (DbPost × ℚ) :=
  let cutoff := now - FEED_CUTOFF_HOURS * 3600
  let posts := get_feed store cutoff
  let seen_posts := hashSetOfList seen
  let scored := mapWithIndex
    (fun i p =>
      let base_score := apply_time_decay decayPow p.priority p.timestamp now
      let final_score :=
        base_score * preference_modifier boosted penalized p.author_did
          * (1 + variance i)
      (p, final_score))
    0 (posts.filter fun p => ¬ seen_posts.contains p.uri)
  scored.insertionSort fun a b => b.2 ≤ a.2

/-- Function `serve_feed` from `src/src/handler.rs`, lines 290-405 (the
storage-success path; the error paths return an empty feed).  Pagination:
`start_index` parses the cursor (0 when absent or unparsable), `limit`
caps the requested limit at `FEED_MAX_LIMIT` defaulting to
`FEED_DEFAULT_LIMIT`, and the next cursor exists when
`start_index + limit < posts.len() - min(seen_set.len(), posts.len())`. -/
def serve_feed (store : List DbPost) (now : ℤ) (seen : List String)
    (boosted penalized : List String) (variance : Nat → ℚ)
    (decayPow : ℚ → ℚ) (request : FeedRequestM) : FeedResultM :=
  let cutoff := now - FEED_CUTOFF_HOURS * 3600
  let posts := get_feed store cutoff
  let seen_posts := hashSetOfList seen
  let start_index := (request.cursor.bind String.toNat?).getD 0
  let limit := (request.limit.map fun l => min l FEED_MAX_LIMIT).getD FEED_DEFAULT_LIMIT
  let scored_posts := serve_feed_scored store now seen boosted penalized variance decayPow
  let page_posts := (scored_posts.drop start_index).take limit
  let filtered_count := posts.length - min seen_posts.length posts.length
  let next_cursor :=
    if start_index + limit < filtered_count
    then some (Nat.repr (start_index + limit)) else none
  { cursor := next_cursor, feed := page_posts.map fun x => x.1.uri }

/-- Model of the spec's recency-bucket sort key,
`floor(timestamp / bucket_seconds)`; no `priority_bucket_hours`
configuration exists in `src/src/settings.rs`, so the bucket width is a
parameter here. -/
def bucketKey (bucket_seconds : ℤ) (timestamp : ℤ) : ℤ :=
  timestamp.fdiv bucket_seconds

/-- Concrete stand-in for the float primitive `x ↦ 0.75f32.powf x` used by
counterexample evaluations: exact at integer exponents (where
`0.75^n` is a dyadic rational computed exactly by the float power), and
`1` at non-integer arguments, where no theorem in this file evaluates it. -/
def decayPowQ (x : ℚ) : ℚ :=
  if x.den = 1 then DECAY_FACTOR ^ x.num else 1

/-! ### Lexical content analysis, `src/src/scoring/content.rs` -/

/-- Constant `FIRST_PERSON` from `src/src/scoring/content.rs`. -/
def FIRST_PERSON : List String :=
  ["i ", "i'", "we ", "we'", "my ", "our "]

/-- Constant `PROMO_DOMAINS` from `src/src/scoring/content.rs` (identical
to `settings().filters.promo_domains`). -/
def PROMO_DOMAINS : List String :=
  ["store.steampowered.com", "steampowered.com", "itch.io", "twitch.tv",
   "fiverr.com", "kickstarter.com", "indiegogo.com", "patreon.com",
   "ko-fi.com", "buymeacoffee.com", "gog.com", "epicgames.com",
   "humblebundle.com", "gamejolt.com", "youtube.com", "youtu.be",
   "playtester.io", "buff.ly", "bit.ly"]

/-- Suffix of `hay` after the first occurrence of `needle` (Rust
`str::find` followed by slicing past the match), `none` when absent. -/
def afterSub : List Char → List Char → Option (List Char)
  | [], needle => if needle.isEmpty then some [] else none
  | h :: t, needle =>
    if listIsPrefix needle (h :: t) then some ((h :: t).drop needle.length)
    else afterSub t needle

/-- Function `is_promo_domain` from `src/src/scoring/content.rs`: take the
host between `://` and the next `/`, test whether any configured promo
domain occurs in it as a substring. -/
def is_promo_domain (url : String) : Bool :=
  let url_lower := toLowerStr url
  match afterSub url_lower.data ("://".data) with
  | some domain_part =>
    let domain := domain_part.takeWhile fun c => ¬ c = '/'
    PROMO_DOMAINS.any fun d => listContainsSub domain d.data
  | none => false

/-- Function `detect_first_person` from `src/src/scoring/content.rs`. -/
def detect_first_person (text : String) : Bool :=
  let text_lower := toLowerStr text
  FIRST_PERSON.any fun fp => strContains text_lower fp

/-- Structure `MediaInfo` from `src/src/scoring/content.rs` (the revision
consumed by `handler.rs`). -/
structure MediaInfo where
  image_count : Nat := 0
  has_video : Bool := false
  has_alt_text : Bool := false
  external_uri : Option String := none
  facet_links : List String := []
deriving DecidableEq, Repr

/-- Structure `ContentSignals` from `src/src/scoring/content.rs`. -/
structure ContentSignals where
  is_first_person : Bool
  images : Nat
  has_video : Bool
  has_alt_text : Bool
  link_count : Nat
  promo_link_count : Nat
deriving DecidableEq, Repr

/-- Rust `u8::saturating_add(1)` on a count kept in `Nat`. -/
def u8SatAdd1 (n : Nat) : Nat :=
  min (n + 1) 255

/-- Function `extract_content_signals` from `src/src/scoring/content.rs`:
count links (and promo links) over the facet links then the external
embed. -/
def extract_content_signals (text : String) (media : MediaInfo) : ContentSignals :=
  let is_first_person := detect_first_person text
  let counts := media.facet_links.foldl
    (fun (c : Nat × Nat) uri =>
      (u8SatAdd1 c.1, if is_promo_domain uri then u8SatAdd1 c.2 else c.2))
    (0, 0)
  let counts := match media.external_uri with
    | some uri =>
      (u8SatAdd1 counts.1, if is_promo_domain uri then u8SatAdd1 counts.2 else counts.2)
    | none => counts
  { is_first_person, images := media.image_count, has_video := media.has_video,
    has_alt_text := media.has_alt_text, link_count := counts.1,
    promo_link_count := counts.2 }

/-! ### Filter chain, `src/src/scoring/filters.rs` -/

/-- A character of the regex class `\w` (`HASHTAG_PATTERN` is `#\w+`). -/
def isTagChar (c : Char) : Bool :=
  c.isAlphanum || c == '_'

/-- True when the list starts with a `\w` character. -/
def headIsTagChar : List Char → Bool
  | c :: _ => isTagChar c
  | [] => false

/-- Scanner equivalent of `HASHTAG_PATTERN.replace_all(text, "")`: drop
every maximal `#\w+` span (leftmost-munch, exactly the regex semantics),
keep everything else.  The flag records whether the scanner stands inside a
`#\w+` match. -/
def stripHashtagsAux : Bool → List Char → List Char
  | _, [] => []
  | true, c :: rest =>
    if isTagChar c then stripHashtagsAux true rest
    else if c == '#' && headIsTagChar rest then stripHashtagsAux true rest
    else c :: stripHashtagsAux false rest
  | false, c :: rest =>
    if c == '#' && headIsTagChar rest then stripHashtagsAux true rest
    else c :: stripHashtagsAux false rest

/-- Leading and trailing whitespace removal (Rust `str::trim`). -/
def trimChars (l : List Char) : List Char :=
  ((l.dropWhile Char.isWhitespace).reverse.dropWhile Char.isWhitespace).reverse

/-- Function `strip_hashtags` from `src/src/scoring/relevance.rs`: remove
all `#\w+` spans and trim whitespace. -/
def strip_hashtags (text : String) : String :=
  String.mk (trimChars (stripHashtagsAux false text.data))

/-- Modelled from the spec: `count_all_hashtags` is imported by
`filters.rs` from `relevance.rs` but its definition is absent from this
snapshot of the source; per the spec it is the total number of `#word`
occurrences, i.e. the number of `#\w+` matches (same scanner as
`stripHashtagsAux`, counting instead of deleting). -/
def count_all_hashtags_aux : Bool → List Char → Nat
  | _, [] => 0
  | true, c :: rest =>
    if isTagChar c then count_all_hashtags_aux true rest
    else if c == '#' && headIsTagChar rest then count_all_hashtags_aux true rest + 1
    else count_all_hashtags_aux false rest
  | false, c :: rest =>
    if c == '#' && headIsTagChar rest then count_all_hashtags_aux true rest + 1
    else count_all_hashtags_aux false rest

/-- Modelled from the spec: total `#word` occurrences in the text. -/
def count_all_hashtags (text : String) : Nat :=
  count_all_hashtags_aux false text.data

/-- Config value `settings().filters.blocked_keywords` from
`src/src/settings.rs`. -/
def BLOCKED_KEYWORDS : List String :=
  ["crypto", "nft", "web3", "blockchain", "mint", "airdrop", "whitelist",
   "rugpull", "solana", "ethereum", "bitcoin", "token sale", "ico", "hodl"]

/-- Config value `settings().filters.blocked_hashtags` from
`src/src/settings.rs`. -/
def BLOCKED_HASHTAGS : List String :=
  ["#nft", "#nfts", "#nftart", "#nftgaming", "#crypto", "#cryptocurrency",
   "#web3", "#web3gaming", "#blockchain", "#freemint", "#airdrop",
   "#solana", "#ethereum", "#bitcoin"]

/-- Modelled from the spec: `settings().scoring.rejection.max_hashtags` is
read by `filters.rs` but the `rejection` section is absent from the
`Settings` struct in this snapshot; the spec's hashtag-spam bound, fixed by
the source's own tests (six hashtags pass, seven reject), is 6. -/
def MAX_HASHTAGS : Nat := 6

/-- Rejection cause, the `Filter` enum from `src/src/scoring/filters.rs`
(the `negativeClassification` variant is the cause carried by the
spec-modelled `apply_ml_filter` below). -/
inductive FilterReason
  | minLength
  | englishOnly
  | blockedKeyword (kw : String)
  | blockedHashtag (tag : String)
  | spammer
  | blockedAuthor
  | promoLink
  | tooManyHashtags (n : Nat)
  | lowPriority
  | negativeClassification
deriving DecidableEq, Repr

/-- Type `FilterResult` from `src/src/scoring/filters.rs`. -/
inductive FilterResult
  | pass
  | reject (f : FilterReason)
deriving DecidableEq, Repr

/-- Tail of `apply_filters` after the author checks: promo-link test, then
the hashtag-spam test, then `Pass`. -/
def apply_filters_promo_onward (text : String) (media : MediaInfo) : FilterResult :=
  let has_promo := (media.facet_links.any fun uri => is_promo_domain uri)
    || (match media.external_uri with
        | some uri => is_promo_domain uri
        | none => false)
  if has_promo then .reject .promoLink
  else
    let hashtag_count := count_all_hashtags text
    if MAX_HASHTAGS < hashtag_count then .reject (.tooManyHashtags hashtag_count)
    else .pass

/-- Function `apply_filters` from `src/src/scoring/filters.rs`, lines
34-92: length, language, blocked keyword/hashtag, author status, promo
link, hashtag spam, in source order, first rejection wins. -/
def apply_filters (text : String) (lang : Option String)
    (author_did : Option String) (media : MediaInfo)
    (spammer_check blocked_author_check : String → Bool) : FilterResult :=
  let stripped := strip_hashtags text
  if stripped.length < MIN_TEXT_LENGTH then .reject .minLength
  else if (match lang with
    | some l => ! listIsPrefix "en".data l.data
    | none => false) then .reject .englishOnly
  else
    let text_lower := toLowerStr text
    match BLOCKED_KEYWORDS.find? fun kw => strContains text_lower kw with
    | some kw => .reject (.blockedKeyword kw)
    | none =>
      match BLOCKED_HASHTAGS.find? fun tag => strContains text_lower tag with
      | some tag => .reject (.blockedHashtag tag)
      | none =>
        match author_did with
        | some did =>
          if blocked_author_check did then .reject .blockedAuthor
          else if spammer_check did then .reject .spammer
          else apply_filters_promo_onward text media
        | none => apply_filters_promo_onward text media

/-! ### Spammer lookup, `src/src/engagement.rs` -/

/-- Method `EngagementTracker::is_spammer` from `src/src/engagement.rs`,
lines 235-251: `pool` is the r2d2 checkout result (`none` models
`pool.get()` returning `Err`), `spammers` the dids of the `spammers`
table; on checkout failure the method returns `false` without consulting
the registry. -/
def is_spammer (pool : Option Unit) (spammers : List String) (did : String) : Bool :=
  match pool with
  | none => false
  | some _ => spammers.contains did

/-! ### Live ingestion, `insert_post` in `src/src/handler.rs` -/

/-- Structure `QualityAssessment` as read by `handler.rs`
(`ml_scores.quality.{engagement_bait_score, synthetic_score,
authenticity_score}`; the `classification.rs` of this snapshot carries the
first two fields, the third is read by the handler revision). -/
structure QualityAssessmentM where
  engagement_bait_score : ℚ := 0
  synthetic_score : ℚ := 0
  authenticity_score : ℚ := 0
deriving DecidableEq, Repr

/-- Structure `MLScores` from `src/src/scoring/classification.rs` (the
fields `insert_post` reads). -/
structure MLScoresM where
  classification_score : ℚ := 0
  semantic_score : ℚ := 0
  best_label : String := ""
  best_label_score : ℚ := 0
  is_negative_label : Bool := false
  quality : QualityAssessmentM := {}
deriving DecidableEq, Repr

/-- Modelled from the spec: `apply_ml_filter` is imported by `handler.rs`
from `crate::scoring` but its definition is absent from this snapshot.
Per the spec, the ML rejection fires when the top label is negative and
its raw score reaches the `ml_rejection` threshold (0.85), matching the
`negative_rejection` computation in `classification.rs` line 213. -/
def apply_ml_filter (best_label : String) (best_label_score : ℚ)
    (is_negative_label : Bool) : FilterResult :=
  let _ := best_label
  if is_negative_label ∧ SCORING_THRESHOLD_ML_REJECTION ≤ best_label_score
  then .reject .negativeClassification
  else .pass

/-- Modelled from the spec: `label_boost` is imported by `handler.rs` from
`crate::scoring` but its definition is absent from this snapshot.  Per the
spec it is the per-label configured boost from
`settings().scoring.topic_boosts` (`game_dev_sharing_work = 0.4`,
`game_programming = 0.2`, `game_dev_rant = 0.6`, `default = 0.6`), keyed
by the label strings of `TopicLabel` in `classification.rs`. -/
def label_boost (label : String) : ℚ :=
  if label = "game developer sharing their own work" then 2/5
  else if label = "game programming or technical development" then 1/5
  else 3/5

/-- Rendering of `ConfidenceTier` by strum `Display`
(`priority.confidence.to_string()` in `insert_post`). -/
def ConfidenceTier.toStr : ConfidenceTier → String
  | .strong => "STRONG"
  | .high => "HIGH"
  | .moderate => "MODERATE"
  | .low => "LOW"

/-- The fields of an incoming firehose `Post` that `insert_post` reads.
`media` is the `MediaInfo` produced by `extract_media_info` from the
post's embed (a pure reshaping of the embed variants); `has_reply` models
`post.reply.is_some()`; `lang` is `post.langs.first()`. -/
structure PostInput where
  uri : String
  text : String
  timestamp : ℤ
  author_did : String
  lang : Option String := none
  has_reply : Bool := false
  media : MediaInfo := {}
deriving DecidableEq, Repr

/-- Structure `NewPost` from `src/src/db.rs` / `handler.rs` (the row
appended to the pending-posts queue). -/
structure NewPostR where
  uri : String
  text : String
  timestamp : ℤ
  final_score : ℚ
  priority : ℚ
  confidence : String
  post_type : String
  keyword_score : ℚ
  hashtag_score : ℚ
  semantic_score : ℚ
  classification_score : ℚ
  has_media : ℤ
  is_first_person : ℤ
  author_did : Option String
  image_count : ℤ
  has_alt_text : ℤ
  link_count : ℤ
  promo_link_count : ℤ
deriving DecidableEq, Repr

/-- Function `insert_post` from `src/src/handler.rs`, lines 174-272,
returning the updated pending-posts queue.  `filter_result` is the outcome
of the `apply_filters(text, lang, Some(author_did), is_spammer)` call (the
`apply_filters` definition matching that four-argument call is absent from
this snapshot, which carries the six-argument revision, so the outcome is
an input here); `ml` is the reply awaited from the ML worker; `ln1p` is
the `f32::ln_1p` primitive threaded to `calculate_priority`. -/
def insert_post (filter_result : FilterResult) (ml : MLScoresM)
    (ln1p : ℚ → ℚ) (post : PostInput) (pending_posts : List NewPostR) :
    List NewPostR :=
  if post.has_reply then pending_posts
  else
    match filter_result with
    | .reject _ => pending_posts
    | .pass =>
      let found_keywords := (has_keywords post.text).1
      let found_hashtags := (has_hashtags post.text).1
      if !found_keywords && !found_hashtags then pending_posts
      else
        match apply_ml_filter ml.best_label ml.best_label_score
          ml.is_negative_label with
        | .reject _ => pending_posts
        | .pass =>
          let content := extract_content_signals post.text post.media
          let score := calculate_score ml.classification_score ml.semantic_score
          let signals : PrioritySignals :=
            { topic_label := ml.best_label,
              label_boost := label_boost ml.best_label,
              engagement_bait_score := ml.quality.engagement_bait_score,
              synthetic_score := ml.quality.synthetic_score,
              authenticity_score := ml.quality.authenticity_score,
              is_first_person := content.is_first_person,
              images := content.images,
              has_video := content.has_video,
              has_alt_text := content.has_alt_text,
              link_count := content.link_count,
              promo_link_count := content.promo_link_count,
              engagement_velocity := 0,
              reply_count := 0, repost_count := 0, like_count := 0 }
          let priority := calculate_priority ln1p score signals
          if score.passes_threshold then
            pending_posts ++
              [{ uri := post.uri, text := post.text,
                 timestamp := post.timestamp,
                 final_score := score.final_score,
                 priority := priority.final_priority,
                 confidence := priority.confidence.toStr,
                 post_type := priority.topic_label,
                 keyword_score := if found_keywords then 1 else 0,
                 hashtag_score := if found_hashtags then 1 else 0,
                 semantic_score := score.semantic_score,
                 classification_score := score.classification_score,
                 has_media := if 0 < post.media.image_count ∨ post.media.has_video
                   then 1 else 0,
                 is_first_person := if content.is_first_person then 1 else 0,
                 author_did := some post.author_did,
                 image_count := content.images,
                 has_alt_text := if content.has_alt_text then 1 else 0,
                 link_count := content.link_count,
                 promo_link_count := content.promo_link_count }]
          else pending_posts

/-! ### Concrete inputs used by counterexamples and witnesses -/

/-- ML worker reply for the C2 evaluation: confidently positive topic,
poor quality (bait and synthetic at 0.9). -/
def mlC2 : MLScoresM :=
  { classification_score := 4/5, semantic_score := 0,
    best_label := "game developer sharing their own work",
    best_label_score := 4/5, is_negative_label := false,
    quality := { engagement_bait_score := 9/10, synthetic_score := 9/10,
                 authenticity_score := 0 } }

/-- Incoming post for the C2 evaluation: root post, keyword `gamedev`,
no media, not first-person. -/
def postC2 : PostInput :=
  { uri := "at://did:plc:a/app.bsky.feed.post/1",
    text := "working on gamedev stuff",
    timestamp := 1000, author_did := "did:plc:a" }

/-- Store for the C1 evaluation: a 24-hour-old post with priority 10 and a
fresh post with priority 0.1, relative to `now = 1000000`.  At a
24-hour age the decay exponent is exactly 1, where `0.75f32.powf` is
exact. -/
def storeC1 : List DbPost :=
  [{ uri := "at://old-high", timestamp := 913600, priority := 10 },
   { uri := "at://new-low", timestamp := 1000000, priority := 1/10 }]

/-- Store for the C8 evaluation: three unseen posts at exact 24-hour
spacings before `now = 1000000`. -/
def storeC8 : List DbPost :=
  [{ uri := "p1", timestamp := 1000000, priority := 1 },
   { uri := "p2", timestamp := 913600, priority := 1 },
   { uri := "p3", timestamp := 827200, priority := 1 }]

/-- Handler state for the C6 witness: one pending like aimed at a post
being deleted in the same flush. -/
def stC6 : HandlerState :=
  { db := { posts := [{ uri := "at://p", timestamp := 5, priority := 1 }],
            likes := [] },
    pending_posts := [],
    pending_likes := [{ post_uri := "at://p", like_uri := "at://l" }],
    pending_deletes := ["at://p"],
    pending_like_deletes := [] }

/-- Store for the C7 witness: one post, plus one like referencing it and
one dangling like. -/
def dbC7 : DbState :=
  { posts := [{ uri := "at://p", timestamp := 5, priority := 1 }], likes := [] }

/-- Like batch for the C7 witness. -/
def likesC7 : List LikeRow :=
  [{ post_uri := "at://p", like_uri := "at://l1" },
   { post_uri := "at://gone", like_uri := "at://l2" }]

/-- Posts table for the C9 witness: three rows, all newer than the cutoff,
with a cap of one. -/
def postsC9 : List DbPost :=
  [{ uri := "a", timestamp := 30, priority := 1 },
   { uri := "b", timestamp := 10, priority := 1 },
   { uri := "c", timestamp := 20, priority := 1 }]

/-- A text passing every filter (borrowed from the source's own
`test_filter_pass`). -/
def textC10 : String :=
  "Just implemented a new combat system in my game #gamedev"

/-! ## Helper lemmas -/

/-- One `INSERT OR IGNORE` step only ever adds the given row. -/
theorem mem_insertOrIgnoreLike {x : LikeRow} {init : List LikeRow} {a : LikeRow}
    (h : x ∈ insertOrIgnoreLike init a) : x ∈ init ∨ x = a := by
  unfold insertOrIgnoreLike at h
  split at h
  · exact Or.inl h
  · rcases List.mem_append.1 h with h' | h'
    · exact Or.inl h'
    · exact Or.inr (List.mem_singleton.1 h')

/-- A bulk `INSERT OR IGNORE` into `likes` only ever adds rows of the
batch. -/
theorem mem_foldl_insertOrIgnoreLike {x : LikeRow} :
    ∀ (l : List LikeRow) (init : List LikeRow),
      x ∈ l.foldl insertOrIgnoreLike init → x ∈ init ∨ x ∈ l := by
  intro l
  induction l with
  | nil => intro init h; exact Or.inl h
  | cons a t ih =>
    intro init h
    rcases ih (insertOrIgnoreLike init a) h with h' | h'
    · rcases mem_insertOrIgnoreLike h' with h'' | h''
      · exact Or.inl h''
      · exact Or.inr (h'' ▸ List.mem_cons_self a t)
    · exact Or.inr (List.mem_cons_of_mem a h')

/-- Any like present after `insert_likes` was present before, or belongs
to the batch and references an existing post. -/
theorem mem_insert_likes_likes {x : LikeRow} {db : DbState} {nl : List LikeRow}
    (h : x ∈ (insert_likes db nl).likes) :
    x ∈ db.likes ∨ (x ∈ nl ∧ ∃ p ∈ db.posts, p.uri = x.post_uri) := by
  simp only [insert_likes] at h
  split at h
  · exact Or.inl h
  · split at h
    · exact Or.inl h
    · rcases mem_foldl_insertOrIgnoreLike _ _ h with h' | h'
      · exact Or.inl h'
      · refine Or.inr ⟨List.mem_of_mem_filter h', ?_⟩
        have hc : x.post_uri ∈
            (db.posts.filter fun p => (nl.map fun l => l.post_uri).contains p.uri).map
              fun p => p.uri := by
          simpa using List.of_mem_filter h'
        rcases List.mem_map.1 hc with ⟨p, hp, hpe⟩
        exact ⟨p, List.mem_of_mem_filter hp, hpe⟩

/-- Post deletes leave the `likes` table untouched. -/
theorem likes_foldl_delete_post (deletes : List String) :
    ∀ db : DbState, (deletes.foldl delete_post db).likes = db.likes := by
  induction deletes with
  | nil => intro db; rfl
  | cons d t ih => intro db; exact ih (delete_post db d)

/-- Like deletes only remove rows from the `likes` table. -/
theorem mem_likes_foldl_delete_like {x : LikeRow} (dels : List String) :
    ∀ db : DbState, x ∈ (dels.foldl delete_like db).likes → x ∈ db.likes := by
  induction dels with
  | nil => intro db h; exact h
  | cons d t ih =>
    intro db h
    exact List.mem_of_mem_filter (ih (delete_like db d) h)

/-- The two-step referenced-post query of `insert_likes` (pre-filter the
`posts` table by the batch uris, then test membership of the projection)
keeps exactly the likes whose referenced post exists. -/
theorem insert_likes_filter_eq (db : DbState) (nl : List LikeRow) :
    (nl.filter fun l =>
        ((db.posts.filter fun p => (nl.map fun x => x.post_uri).contains p.uri).map
          fun p => p.uri).contains l.post_uri)
      = nl.filter fun l => db.posts.any fun p => p.uri = l.post_uri := by
  apply List.filter_congr
  intro x hx
  rw [Bool.eq_iff_iff]
  simp only [List.elem_iff, List.mem_map, List.mem_filter, List.any_eq_true,
    decide_eq_true_eq]
  constructor
  · rintro ⟨p, ⟨hp, _⟩, hpe⟩
    exact ⟨p, hp, hpe⟩
  · rintro ⟨p, hp, hpe⟩
    exact ⟨p, ⟨hp, ⟨x, hx, hpe.symm⟩⟩, hpe⟩

/-- Deleting the rows whose uri lies in the first `k` entries of a sorted
copy leaves (a permutation of) the remaining entries of the sorted copy,
provided uris are unique. -/
theorem filter_not_doomed_perm (l : List DbPost) (k : Nat)
    (hnd : (l.map fun p => p.uri).Nodup) :
    (l.filter fun p =>
        ¬ (((l.insertionSort fun a b => a.timestamp ≤ b.timestamp).take k).map
          fun q => q.uri).contains p.uri).Perm
      ((l.insertionSort fun a b => a.timestamp ≤ b.timestamp).drop k) := by
  set s := l.insertionSort fun a b => a.timestamp ≤ b.timestamp with hs
  have hperm : s.Perm l := List.perm_insertionSort _ _
  have hnds : (s.map fun p => p.uri).Nodup :=
    ((hperm.map fun p => p.uri).nodup_iff).2 hnd
  set P : DbPost → Bool :=
    fun p => decide (¬ ((s.take k).map fun q => q.uri).contains p.uri) with hP
  have h1 : (l.filter P).Perm (s.filter P) := (hperm.filter P).symm
  have h2 : s.filter P = (s.take k).filter P ++ (s.drop k).filter P := by
    conv_lhs => rw [← List.take_append_drop k s]
    exact List.filter_append _ _
  have h3 : (s.take k).filter P = [] := by
    rw [List.filter_eq_nil_iff]
    intro a ha
    simp only [hP, decide_eq_true_eq, not_not, List.elem_iff]
    exact List.mem_map.2 ⟨a, ha, rfl⟩
  have h4 : (s.drop k).filter P = s.drop k := by
    rw [List.filter_eq_self]
    intro a ha
    simp only [hP, decide_eq_true_eq, List.elem_iff]
    intro hcon
    have hmap : s.map (fun p => p.uri)
        = (s.take k).map (fun p => p.uri) ++ (s.drop k).map (fun p => p.uri) := by
      rw [← List.map_append, List.take_append_drop]
    rw [hmap] at hnds
    rcases List.nodup_append.1 hnds with ⟨_, _, hdisj⟩
    exact hdisj hcon (List.mem_map.2 ⟨a, ha, rfl⟩)
  rw [h2, h3, h4] at h1
  simpa using h1

/-- Indexed mapping preserves length. -/
theorem length_mapWithIndex (f : Nat → α → β) :
    ∀ (i : Nat) (l : List α), (mapWithIndex f i l).length = l.length := by
  intro i l
  induction l generalizing i with
  | nil => rfl
  | cons a t ih => simp [mapWithIndex, ih]

/-- Collecting into a hash set yields distinct entries. -/
theorem nodup_hashSetOfList (l : List String) : (hashSetOfList l).Nodup := by
  have key : ∀ (xs : List String) (acc : List String), acc.Nodup →
      (xs.foldl (fun acc s => if acc.contains s then acc else acc ++ [s]) acc).Nodup := by
    intro xs
    induction xs with
    | nil => intro acc h; exact h
    | cons x t ih =>
      intro acc hacc
      by_cases hx : x ∈ acc
      · simpa [List.elem_iff, hx] using ih acc hacc
      · have hnd2 : (acc ++ [x]).Nodup := by
          rw [List.nodup_append]
          refine ⟨hacc, List.nodup_singleton x, ?_⟩
          intro a ha hax
          rw [List.mem_singleton] at hax
          exact hx (hax ▸ ha)
        simpa [List.elem_iff, hx] using ih (acc ++ [x]) hnd2
  exact key l [] List.nodup_nil

/-- The rows failing a filter and the rows passing it partition a list. -/
theorem length_filter_not_add (p : α → Bool) (l : List α) :
    (l.filter fun a => !(p a)).length + (l.filter p).length = l.length := by
  induction l with
  | nil => rfl
  | cons a t ih =>
    by_cases h : p a <;> simp [h, ← ih] <;> omega

/-- The filter chain rejects with the `Spammer` cause only out of the
author-check branch, never from the promo or hashtag tail. -/
theorem promo_onward_ne_spammer (text : String) (media : MediaInfo) :
    apply_filters_promo_onward text media ≠ .reject .spammer := by
  simp only [apply_filters_promo_onward]
  repeat' split <;> simp

/-! ## Claims -/

/-- C1: the spec claims `serve_feed` orders posts by the two-level key
(recency bucket descending, then display priority descending).  The code
instead sorts by the single continuously decayed display score: the whole
scored list is sorted by `display` descending (first conjunct), and the
returned page is a contiguous slice of that list (second conjunct); no
bucket ever overrides the comparison. -/
theorem c1_serve_feed_sorted_by_display (store : List DbPost) (now : ℤ)
    (seen boosted penalized : List String) (variance : Nat → ℚ)
    (decayPow : ℚ → ℚ) (request : FeedRequestM) :
    List.Sorted (fun a b : DbPost × ℚ => b.2 ≤ a.2)
      (serve_feed_scored store now seen boosted penalized variance decayPow)
    ∧ (serve_feed store now seen boosted penalized variance decayPow request).feed
        = (((serve_feed_scored store now seen boosted penalized variance decayPow).drop
            ((request.cursor.bind String.toNat?).getD 0)).take
            ((request.limit.map fun l => min l FEED_MAX_LIMIT).getD FEED_DEFAULT_LIMIT)).map
          fun x => x.1.uri := by
  constructor
  · unfold serve_feed_scored
    letI : IsTotal (DbPost × ℚ) (fun a b => b.2 ≤ a.2) := ⟨fun a b => le_total b.2 a.2⟩
    letI : IsTrans (DbPost × ℚ) (fun a b => b.2 ≤ a.2) :=
      ⟨fun a b c hab hbc => le_trans hbc hab⟩
    exact List.sorted_insertionSort _ _
  · rfl

/-- C1 witness: the page equation of `c1_serve_feed_sorted_by_display`
evaluated at the concrete two-post store. -/
theorem c1_serve_feed_sorted_witness :
    (serve_feed storeC1 1000000 [] [] [] (fun _ => 0) decayPowQ {}).feed
      = (((serve_feed_scored storeC1 1000000 [] [] [] (fun _ => 0) decayPowQ).drop
          ((({} : FeedRequestM).cursor.bind String.toNat?).getD 0)).take
          ((({} : FeedRequestM).limit.map fun l => min l FEED_MAX_LIMIT).getD
            FEED_DEFAULT_LIMIT)).map
        fun x => x.1.uri :=
  (c1_serve_feed_sorted_by_display storeC1 1000000 [] [] [] (fun _ => 0)
    decayPowQ {}).2

/-- C1 counterexample: with the 24-hour-old priority-10 post and the fresh
priority-0.1 post (exact float decay 0.75 and 1 resp., zero RNG draws),
`serve_feed` returns the *older* post first, although it lies in a
strictly older recency bucket (1-hour buckets; any width up to 24 h gives
the same verdict) — refuting "a post in a newer recency bucket always
precedes a post in an older bucket". -/
theorem c1_bucket_order_counterexample :
    (serve_feed storeC1 1000000 [] [] [] (fun _ => 0) decayPowQ {}).feed
      = ["at://old-high", "at://new-low"]
    ∧ bucketKey 3600 913600 < bucketKey 3600 1000000 := by
  constructor
  · norm_num [serve_feed, serve_feed_scored, get_feed, storeC1, apply_time_decay,
      decayPowQ, preference_modifier, hashSetOfList, mapWithIndex,
      List.insertionSort, List.orderedInsert, FEED_CUTOFF_HOURS,
      FEED_DEFAULT_LIMIT, FEED_MAX_LIMIT, DECAY_EVERY_X_HOURS, DECAY_FACTOR]
  · decide

/-- C2: after the filters, the topical-signal check and the ML check have
passed, `insert_post` appends the record if and only if the blended
topic/semantic score (`calculate_score`) reaches
`scoring.thresholds.score` — the computed final priority is not consulted
(the spec's "drop when priority < min_priority" has no counterpart in the
code, whose configuration carries no minimum priority). -/
theorem c2_append_iff_score_threshold (filter_result : FilterResult)
    (ml : MLScoresM) (ln1p : ℚ → ℚ) (post : PostInput)
    (pending : List NewPostR)
    (hreply : post.has_reply = false)
    (hfilter : filter_result = .pass)
    (hsig : (has_keywords post.text).1 = true ∨ (has_hashtags post.text).1 = true)
    (hml : apply_ml_filter ml.best_label ml.best_label_score ml.is_negative_label
      = .pass) :
    insert_post filter_result ml ln1p post pending ≠ pending
      ↔ SCORING_THRESHOLD_SCORE
          ≤ (calculate_score ml.classification_score ml.semantic_score).final_score := by
  subst hfilter
  have hsig' : (!(has_keywords post.text).1 && !(has_hashtags post.text).1) = false := by
    rcases hsig with h | h <;> simp [h]
  simp only [insert_post, hreply, if_false, hsig', hml]
  by_cases hp : (calculate_score ml.classification_score ml.semantic_score).passes_threshold
  · rw [if_pos hp]
    have hiff : SCORING_THRESHOLD_SCORE
        ≤ (calculate_score ml.classification_score ml.semantic_score).final_score := by
      have := hp
      unfold ScoreBreakdown.passes_threshold at this
      exact of_decide_eq_true this
    simp only [hiff, iff_true]
    intro h
    have := congrArg List.length h
    simp at this
  · rw [if_neg hp]
    have hiff : ¬ SCORING_THRESHOLD_SCORE
        ≤ (calculate_score ml.classification_score ml.semantic_score).final_score := by
      intro hc
      exact hp (by unfold ScoreBreakdown.passes_threshold; exact decide_eq_true hc)
    simp [hiff]

/-- C2 witness: the concrete keyword-bearing post with the concrete ML
reply satisfies every hypothesis of `c2_append_iff_score_threshold`. -/
theorem c2_append_iff_score_threshold_witness :
    postC2.has_reply = false
    ∧ ((has_keywords postC2.text).1 = true ∨ (has_hashtags postC2.text).1 = true)
    ∧ (insert_post .pass mlC2 (fun _ => 0) postC2 [] ≠ []
        ↔ SCORING_THRESHOLD_SCORE
            ≤ (calculate_score mlC2.classification_score
                mlC2.semantic_score).final_score) :=
  ⟨rfl, Or.inl (by decide),
    c2_append_iff_score_threshold .pass mlC2 (fun _ => 0) postC2 [] rfl rfl
      (Or.inl (by decide)) (by simp [apply_ml_filter, mlC2])⟩

/-- C2 counterexample: the concrete post is appended to the pending queue
with a computed final priority of −0.76, far below the configured
threshold (0.5) — refuting "appended if and only if the final priority is
not below the configured minimum". -/
theorem c2_low_priority_appended_counterexample :
    (insert_post .pass mlC2 (fun _ => 0) postC2 []).map (fun p => p.priority)
      = [-19/25]
    ∧ (-19/25 : ℚ) < SCORING_THRESHOLD_SCORE := by
  have hk : (has_keywords postC2.text).1 = true := by decide
  have hh : (has_hashtags postC2.text).1 = false := by decide
  have hcontent : extract_content_signals postC2.text postC2.media
      = { is_first_person := false, images := 0, has_video := false,
          has_alt_text := false, link_count := 0, promo_link_count := 0 } := by decide
  have hml : apply_ml_filter mlC2.best_label mlC2.best_label_score
      mlC2.is_negative_label = .pass := by
    simp [apply_ml_filter, mlC2]
  constructor
  · simp only [insert_post, hk, hh, hcontent, hml]
    norm_num [mlC2, postC2, calculate_score, calculate_priority,
      calculate_engagement_boost, label_boost, ScoreBreakdown.passes_threshold,
      ConfidenceTier.from_score, ConfidenceTier.toStr,
      SCORING_WEIGHT_TOPIC, SCORING_WEIGHT_SEMANTIC, SCORING_THRESHOLD_SCORE,
      STRONG_THRESHOLD, HIGH_THRESHOLD, MODERATE_THRESHOLD,
      POOR_QUALITY_PENALTY_MIN, GOOD_QUALITY_BOOST_MIN, ENGAGEMENT_BOOST_MIN,
      MANY_IMAGES_THRESHOLD, REPLY_WEIGHT, REPOST_WEIGHT, LIKE_WEIGHT,
      VELOCITY_SCALE, MAX_ENGAGEMENT_BOOST]
  · norm_num [SCORING_THRESHOLD_SCORE]

/-- C3: the spec requires `has_hashtags` to match configured tags only
against whole extracted `#word` tokens, so `#RustBeltLiving` must not
match `#rust`.  The code compares with plain substring containment and
returns `(true, 1)` on `#RustBeltLiving` (the configured `#rust` occurs
inside it), contradicting the spec's stated invariant while the sibling
`has_keywords` implements the required boundary-aware matching. -/
theorem c3_hashtag_substring_match :
    has_hashtags "#RustBeltLiving" = (true, 1) := by decide

/-- C4 (amended): on all-zero signals the final priority is exactly 0 and
the penalty list is empty, but the boost list is not empty: it contains
exactly the one `topic` trace entry that `calculate_priority` pushes
unconditionally. -/
theorem c4_all_zero_signals (ln1p : ℚ → ℚ) (h : ln1p 0 = 0) :
    (calculate_priority ln1p (calculate_score 0 0) {}).final_priority = 0
    ∧ (calculate_priority ln1p (calculate_score 0 0) {}).penalty_reasons = []
    ∧ (calculate_priority ln1p (calculate_score 0 0) {}).boost_reasons
        = [Reason.topic] := by
  norm_num [calculate_priority, calculate_engagement_boost, calculate_score,
    POOR_QUALITY_PENALTY_MIN, GOOD_QUALITY_BOOST_MIN, ENGAGEMENT_BOOST_MIN,
    MANY_IMAGES_THRESHOLD, REPLY_WEIGHT, REPOST_WEIGHT, LIKE_WEIGHT,
    VELOCITY_SCALE, MAX_ENGAGEMENT_BOOST, SCORING_WEIGHT_TOPIC,
    SCORING_WEIGHT_SEMANTIC, h]

/-- C4 witness: `c4_all_zero_signals` at the zero `ln_1p` stand-in (the
exact value of `f32::ln_1p` at 0). -/
theorem c4_all_zero_signals_witness :
    (calculate_priority (fun _ => 0) (calculate_score 0 0) {}).final_priority = 0
    ∧ (calculate_priority (fun _ => 0) (calculate_score 0 0) {}).penalty_reasons = []
    ∧ (calculate_priority (fun _ => 0) (calculate_score 0 0) {}).boost_reasons
        = [Reason.topic] :=
  c4_all_zero_signals (fun _ => 0) rfl

/-- C4 counterexample: on all-zero signals the boost-reasons list is not
empty (it carries the unconditional `topic` line), refuting "both the
boost-reasons list and the penalty-reasons list are empty". -/
theorem c4_boost_list_nonempty_counterexample :
    (calculate_priority (fun _ => 0) (calculate_score 0 0) {}).boost_reasons ≠ [] := by
  norm_num [calculate_priority, calculate_engagement_boost, calculate_score,
    POOR_QUALITY_PENALTY_MIN, GOOD_QUALITY_BOOST_MIN, ENGAGEMENT_BOOST_MIN,
    MANY_IMAGES_THRESHOLD, REPLY_WEIGHT, REPOST_WEIGHT, LIKE_WEIGHT,
    VELOCITY_SCALE, MAX_ENGAGEMENT_BOOST, SCORING_WEIGHT_TOPIC,
    SCORING_WEIGHT_SEMANTIC]

/-- C5 (amended): the authenticity score is *always* added to the final
priority — for every input, the priority exceeds the priority of the same
input with authenticity zeroed by exactly the authenticity score; the
`GOOD_QUALITY_BOOST_MIN` threshold only controls whether a boost-reason
trace entry is recorded. -/
theorem c5_authenticity_always_added (ln1p : ℚ → ℚ) (score : ScoreBreakdown)
    (signals : PrioritySignals) :
    (calculate_priority ln1p score signals).final_priority
      = (calculate_priority ln1p score
          { signals with authenticity_score := 0 }).final_priority
        + signals.authenticity_score := by
  simp only [calculate_priority, calculate_engagement_boost]
  ring

/-- C5 witness: `c5_authenticity_always_added` at a concrete
below-threshold authenticity score. -/
theorem c5_authenticity_always_added_witness :
    (calculate_priority (fun _ => 0) (calculate_score 0 0)
        { authenticity_score := 1/20 }).final_priority
      = (calculate_priority (fun _ => 0) (calculate_score 0 0)
          { ({ authenticity_score := 1/20 } : PrioritySignals) with
            authenticity_score := 0 }).final_priority
        + ({ authenticity_score := 1/20 } : PrioritySignals).authenticity_score :=
  c5_authenticity_always_added (fun _ => 0) (calculate_score 0 0)
    { authenticity_score := 1/20 }

/-- C5 counterexample: with an authenticity score of 0.05, strictly below
the 0.1 threshold, the final priority differs from the zero-authenticity
priority — refuting "below the threshold the final priority is identical
to what it would be with an authenticity score of zero". -/
theorem c5_below_threshold_contributes_counterexample :
    (calculate_priority (fun _ => 0) (calculate_score 0 0)
        { authenticity_score := 1/20 }).final_priority
      ≠ (calculate_priority (fun _ => 0) (calculate_score 0 0)
          { ({ authenticity_score := 1/20 } : PrioritySignals) with
            authenticity_score := 0 }).final_priority
    ∧ ({ authenticity_score := 1/20 } : PrioritySignals).authenticity_score
        < GOOD_QUALITY_BOOST_MIN := by
  norm_num [calculate_priority, calculate_engagement_boost, calculate_score,
    POOR_QUALITY_PENALTY_MIN, GOOD_QUALITY_BOOST_MIN, ENGAGEMENT_BOOST_MIN,
    MANY_IMAGES_THRESHOLD, REPLY_WEIGHT, REPOST_WEIGHT, LIKE_WEIGHT,
    VELOCITY_SCALE, MAX_ENGAGEMENT_BOOST, SCORING_WEIGHT_TOPIC,
    SCORING_WEIGHT_SEMANTIC]

/-- C6: within one flush, the resulting store equals post deletes, then
like deletes, then the post inserts, then the like inserts (deletes before
inserts), where the inserted likes are the pending likes whose `post_uri`
is *not* in this flush's delete set; consequently every like present after
the flush either predates it or is a pending like outside the delete
set — a pending like aimed at a deleted post is never inserted. -/
theorem c6_flush_deletes_before_inserts (st : HandlerState) :
    (flush_pending st).db =
      insert_likes
        (insert_posts
          (st.pending_like_deletes.foldl delete_like
            (st.pending_deletes.foldl delete_post st.db))
          st.pending_posts)
        (st.pending_likes.filter fun l => ¬ st.pending_deletes.contains l.post_uri)
    ∧ ∀ l ∈ (flush_pending st).db.likes,
        l ∈ st.db.likes ∨ (l ∈ st.pending_likes ∧ l.post_uri ∉ st.pending_deletes) := by
  constructor
  · unfold flush_pending
    split
    · rename_i hemp
      obtain ⟨h1, h2, h3, h4⟩ := hemp
      rw [List.isEmpty_iff] at h1 h2 h3 h4
      simp [h1, h2, h3, h4, insert_posts, insert_likes]
    · rfl
  · intro l hl
    unfold flush_pending at hl
    split at hl
    · exact Or.inl hl
    · rcases mem_insert_likes_likes hl with h' | ⟨h', _⟩
      · have h2 : l ∈ (st.pending_like_deletes.foldl delete_like
            (st.pending_deletes.foldl delete_post st.db)).likes := h'
        have h3 := mem_likes_foldl_delete_like _ _ h2
        rw [likes_foldl_delete_post] at h3
        exact Or.inl h3
      · refine Or.inr ⟨List.mem_of_mem_filter h', ?_⟩
        have := List.of_mem_filter h'
        simpa using this

/-- C6 witness: the flush-order equation of
`c6_flush_deletes_before_inserts` at a state holding one pending like
aimed at a post deleted in the same flush. -/
theorem c6_flush_deletes_before_inserts_witness :
    (flush_pending stC6).db =
      insert_likes
        (insert_posts
          (stC6.pending_like_deletes.foldl delete_like
            (stC6.pending_deletes.foldl delete_post stC6.db))
          stC6.pending_posts)
        (stC6.pending_likes.filter fun l => ¬ stC6.pending_deletes.contains l.post_uri) :=
  (c6_flush_deletes_before_inserts stC6).1

/-- C7: `insert_likes` leaves the `posts` table unchanged, passes exactly
the likes whose referenced post exists in the store at insert time to the
duplicate-ignoring insert, and consequently stores only likes that either
predate the call or belong to the batch and reference an existing post. -/
theorem c7_insert_likes_referential_check (db : DbState) (new_likes : List LikeRow) :
    (insert_likes db new_likes).posts = db.posts
    ∧ (insert_likes db new_likes).likes
        = (new_likes.filter fun l => db.posts.any fun p => p.uri = l.post_uri).foldl
            insertOrIgnoreLike db.likes
    ∧ ∀ l ∈ (insert_likes db new_likes).likes,
        l ∈ db.likes ∨ (l ∈ new_likes ∧ ∃ p ∈ db.posts, p.uri = l.post_uri) := by
  refine ⟨?_, ?_, fun l hl => mem_insert_likes_likes hl⟩
  · simp only [insert_likes]
    split
    · rfl
    · split <;> rfl
  · rw [← insert_likes_filter_eq db new_likes]
    simp only [insert_likes]
    split
    · rename_i hemp
      rw [List.isEmpty_iff] at hemp
      simp [hemp]
    · split
      · rename_i hv
        rw [List.isEmpty_iff] at hv
        rw [hv]
        rfl
      · rfl

/-- C7 witness: the existence-filter equation of
`c7_insert_likes_referential_check` at a batch holding one valid and one
dangling like. -/
theorem c7_insert_likes_referential_check_witness :
    (insert_likes dbC7 likesC7).likes
      = (likesC7.filter fun l => dbC7.posts.any fun p => p.uri = l.post_uri).foldl
          insertOrIgnoreLike dbC7.likes :=
  (c7_insert_likes_referential_check dbC7 likesC7).2.1

/-- C8 (amended): `serve_feed` returns at most
`min(limit, FEED_MAX_LIMIT)` URIs (default `FEED_DEFAULT_LIMIT`), starting
at the cursor-parsed index, and emits `start+limit` as the next cursor
exactly when `start+limit < fetched_count − min(|seen set|,
fetched_count)`.  A present cursor does imply unseen posts remain beyond
the page, but the converse fails: the count uses the size of the whole
seen set, which may reference posts outside the fetched window. -/
theorem c8_pagination (store : List DbPost) (now : ℤ)
    (seen boosted penalized : List String) (variance : Nat → ℚ)
    (decayPow : ℚ → ℚ) (request : FeedRequestM)
    (hnodup : (store.map fun p => p.uri).Nodup) :
    (serve_feed store now seen boosted penalized variance decayPow request).feed.length
        ≤ (request.limit.map fun l => min l FEED_MAX_LIMIT).getD FEED_DEFAULT_LIMIT
    ∧ (serve_feed store now seen boosted penalized variance decayPow request).feed
        = (((serve_feed_scored store now seen boosted penalized variance decayPow).drop
            ((request.cursor.bind String.toNat?).getD 0)).take
            ((request.limit.map fun l => min l FEED_MAX_LIMIT).getD FEED_DEFAULT_LIMIT)).map
          (fun x => x.1.uri)
    ∧ (serve_feed store now seen boosted penalized variance decayPow request).cursor
        = (if ((request.cursor.bind String.toNat?).getD 0)
              + ((request.limit.map fun l => min l FEED_MAX_LIMIT).getD FEED_DEFAULT_LIMIT)
              < (get_feed store (now - FEED_CUTOFF_HOURS * 3600)).length
                - min (hashSetOfList seen).length
                    (get_feed store (now - FEED_CUTOFF_HOURS * 3600)).length
           then some (Nat.repr (((request.cursor.bind String.toNat?).getD 0)
              + ((request.limit.map fun l => min l FEED_MAX_LIMIT).getD FEED_DEFAULT_LIMIT)))
           else none)
    ∧ ((serve_feed store now seen boosted penalized variance decayPow request).cursor.isSome
        → (serve_feed_scored store now seen boosted penalized variance decayPow).drop
            (((request.cursor.bind String.toNat?).getD 0)
              + ((request.limit.map fun l => min l FEED_MAX_LIMIT).getD FEED_DEFAULT_LIMIT))
            ≠ []) := by
  refine ⟨?_, rfl, rfl, ?_⟩
  · show ((((serve_feed_scored store now seen boosted penalized variance decayPow).drop
        _).take _).map (fun x => x.1.uri)).length ≤ _
    rw [List.length_map]
    exact List.length_take_le _ _
  · intro hsome
    set posts := get_feed store (now - FEED_CUTOFF_HOURS * 3600) with hposts
    set seen_posts := hashSetOfList seen with hseen
    set start_index := (request.cursor.bind String.toNat?).getD 0 with hstart
    set limit := (request.limit.map fun l => min l FEED_MAX_LIMIT).getD FEED_DEFAULT_LIMIT
      with hlimit
    have hcond : start_index + limit
        < posts.length - min seen_posts.length posts.length := by
      by_contra hc
      have : (serve_feed store now seen boosted penalized variance decayPow
          request).cursor = none := by
        show (if start_index + limit
            < posts.length - min seen_posts.length posts.length
          then some (Nat.repr (start_index + limit)) else none) = none
        rw [if_neg hc]
      rw [this] at hsome
      simp at hsome
    have hpostsnd : (posts.map fun p => p.uri).Nodup := by
      have hperm : posts.Perm (store.filter
          fun p => (now - FEED_CUTOFF_HOURS * 3600) < p.timestamp) :=
        List.perm_insertionSort _ _
      have := (hperm.map fun p => p.uri).nodup_iff
      exact this.2 (List.Nodup.sublist ((List.filter_sublist store).map _) hnodup)
    set c : DbPost → Bool := fun p => seen_posts.contains p.uri with hc
    have hfc : ((posts.filter c).map fun p => p.uri).Nodup :=
      List.Nodup.sublist ((List.filter_sublist posts).map _) hpostsnd
    have hsub : ((posts.filter c).map fun p => p.uri) ⊆ seen_posts := by
      intro a ha
      rcases List.mem_map.1 ha with ⟨p, hp, hpe⟩
      have := List.of_mem_filter hp
      rw [hc] at this
      exact hpe ▸ List.elem_iff.1 this
    have hA : (posts.filter c).length ≤ seen_posts.length := by
      have := (List.Nodup.subperm hfc hsub).length_le
      simpa using this
    have hPA : (posts.filter c).length ≤ posts.length := List.length_filter_le _ _
    have hB : (posts.filter fun p => !(c p)).length + (posts.filter c).length
        = posts.length := length_filter_not_add c posts
    have hscorelen : (serve_feed_scored store now seen boosted penalized variance
        decayPow).length = (posts.filter fun p => !(c p)).length := by
      unfold serve_feed_scored
      rw [(List.perm_insertionSort _ _).length_eq, length_mapWithIndex]
      congr 1
      apply List.filter_congr
      intro x _
      simp [hc]
    have hmin : (posts.filter c).length ≤ min seen_posts.length posts.length :=
      le_min hA hPA
    have hlenge : posts.length - min seen_posts.length posts.length
        ≤ (posts.filter fun p => !(c p)).length := by omega
    have hlt : start_index + limit < (serve_feed_scored store now seen boosted
        penalized variance decayPow).length := by
      rw [hscorelen]; omega
    rw [← List.length_pos]
    rw [List.length_drop]
    omega

/-- C8 witness: the page-size bound of `c8_pagination` at the concrete
three-post store with a stale seen entry. -/
theorem c8_pagination_witness :
    (storeC8.map fun p => p.uri).Nodup
    ∧ (serve_feed storeC8 1000000 ["x"] [] [] (fun _ => 0) decayPowQ
          { limit := some 2 }).feed.length
        ≤ ((({ limit := some 2 } : FeedRequestM).limit.map
            fun l => min l FEED_MAX_LIMIT).getD FEED_DEFAULT_LIMIT) :=
  ⟨by decide,
    (c8_pagination storeC8 1000000 ["x"] [] [] (fun _ => 0) decayPowQ
      { limit := some 2 } (by decide)).1⟩

/-- C8 counterexample: three unseen posts, a limit of 2, and a seen entry
`"x"` that matches no fetched post: one unseen post remains beyond the
returned page, yet the response carries no cursor — refuting "the next
cursor is present exactly when unseen posts remain beyond the page". -/
theorem c8_missing_cursor_counterexample :
    (serve_feed storeC8 1000000 ["x"] [] [] (fun _ => 0) decayPowQ
        { limit := some 2 }).cursor = none
    ∧ (serve_feed_scored storeC8 1000000 ["x"] [] [] (fun _ => 0) decayPowQ).drop 2
        ≠ [] := by
  constructor
  · norm_num [serve_feed, serve_feed_scored, get_feed, storeC8, apply_time_decay,
      decayPowQ, preference_modifier, hashSetOfList, mapWithIndex,
      List.insertionSort, List.orderedInsert, FEED_CUTOFF_HOURS,
      FEED_DEFAULT_LIMIT, FEED_MAX_LIMIT, DECAY_EVERY_X_HOURS, DECAY_FACTOR]
  · norm_num [serve_feed_scored, get_feed, storeC8, apply_time_decay,
      decayPowQ, preference_modifier, hashSetOfList, mapWithIndex,
      List.insertionSort, List.orderedInsert, FEED_CUTOFF_HOURS,
      DECAY_EVERY_X_HOURS, DECAY_FACTOR]

/-- C9: `cleanup_old_posts` first drops the rows older than the cutoff;
the remainder is (a permutation of) the timestamp-ascending order with the
`excess` oldest rows removed, every surviving row is at least as new as
the cutoff, the final count is `min(count_after_age, max_posts)`, and in
particular never exceeds `max_posts` (uris unique per the table's primary
key, cap nonnegative). -/
theorem c9_cleanup_respects_cap (posts : List DbPost) (cutoff max_posts : ℤ)
    (hnodup : (posts.map fun p => p.uri).Nodup) (hmax : 0 ≤ max_posts) :
    (cleanup_old_posts posts cutoff max_posts).Perm
      (((posts.filter fun p => ¬ p.timestamp < cutoff).insertionSort
          fun a b => a.timestamp ≤ b.timestamp).drop
        ((((posts.filter fun p => ¬ p.timestamp < cutoff).length : ℤ)
          - max_posts).toNat))
    ∧ ((cleanup_old_posts posts cutoff max_posts).length : ℤ)
        = min ((posts.filter fun p => ¬ p.timestamp < cutoff).length : ℤ) max_posts
    ∧ ((cleanup_old_posts posts cutoff max_posts).length : ℤ) ≤ max_posts
    ∧ ∀ p ∈ cleanup_old_posts posts cutoff max_posts, ¬ p.timestamp < cutoff := by
  set after_age := posts.filter fun p => ¬ p.timestamp < cutoff with hage
  have hnd : (after_age.map fun p => p.uri).Nodup :=
    List.Nodup.sublist ((List.filter_sublist posts).map _) hnodup
  set k := (((after_age.length : ℤ)) - max_posts).toNat with hk
  have hmem_age : ∀ p ∈ after_age, ¬ p.timestamp < cutoff := by
    intro p hp
    have := List.of_mem_filter hp
    simpa using this
  have hperm : (cleanup_old_posts posts cutoff max_posts).Perm
      ((after_age.insertionSort fun a b => a.timestamp ≤ b.timestamp).drop k) := by
    simp only [cleanup_old_posts]
    rw [← hage]
    split
    · exact filter_not_doomed_perm after_age k hnd
    · rename_i hle
      have hk0 : k = 0 := by
        rw [hk]
        omega
      rw [hk0, List.drop_zero]
      exact (List.perm_insertionSort _ _).symm
  have hlen : ((cleanup_old_posts posts cutoff max_posts).length : ℤ)
      = min ((after_age.length : ℤ)) max_posts := by
    rw [hperm.length_eq, List.length_drop]
    have hsl : (after_age.insertionSort fun a b => a.timestamp ≤ b.timestamp).length
        = after_age.length := (List.perm_insertionSort _ _).length_eq
    rw [hsl, hk]
    omega
  refine ⟨hperm, hlen, ?_, ?_⟩
  · rw [hlen]; omega
  · intro p hp
    have hp' : p ∈ (after_age.insertionSort fun a b => a.timestamp ≤ b.timestamp).drop k :=
      hperm.subset hp
    have : p ∈ after_age :=
      (List.perm_insertionSort _ _).subset (List.mem_of_mem_drop hp')
    exact hmem_age p this

/-- C9 witness: the cap bound of `c9_cleanup_respects_cap` on a three-post
table with a cap of one. -/
theorem c9_cleanup_respects_cap_witness :
    (postsC9.map fun p => p.uri).Nodup ∧ (0:ℤ) ≤ 1
    ∧ ((cleanup_old_posts postsC9 5 1).length : ℤ) ≤ 1 :=
  ⟨by decide, by norm_num,
    (c9_cleanup_respects_cap postsC9 5 1 (by decide) (by norm_num)).2.2.1⟩

/-- C10: when the connection-pool checkout fails, `is_spammer` returns
`false` for every author, so the filter chain never rejects with the
`Spammer` cause; concretely, a registered spammer's otherwise-valid post
passes the whole filter chain during such a failure (spam filtering fails
open). -/
theorem c10_spammer_check_fails_open :
    (∀ reg did, is_spammer none reg did = false)
    ∧ (∀ text lang author media blocked reg,
        apply_filters text lang author media (is_spammer none reg) blocked
          ≠ .reject .spammer)
    ∧ apply_filters textC10 (some "en") (some "did:plc:spam") {}
        (is_spammer none ["did:plc:spam"]) (fun _ => false) = .pass
    ∧ ("did:plc:spam" ∈ ["did:plc:spam"]) := by
  refine ⟨fun reg did => rfl, fun text lang author media blocked reg => ?_,
    by decide, by simp⟩
  simp only [apply_filters]
  repeat' split <;> first
    | exact promo_onward_ne_spammer _ _
    | simp_all [is_spammer]
    | skip

/-- C10 witness: `c10_spammer_check_fails_open` specialized to the
registered spammer did. -/
theorem c10_spammer_check_fails_open_witness :
    is_spammer none ["did:plc:spam"] "did:plc:spam" = false :=
  c10_spammer_check_fails_open.1 ["did:plc:spam"] "did:plc:spam"

end DevlogsFeed
